import Mathlib

/-!
Verification of the streaming-response client of the `excel_agent`
repository (`src/frontend/app.js`, duplicated in the WebSocket variant
`src/unnamed/part_001`).  The client consumes a sequence of JSON
envelopes `{code, data}`; each `data` message carries an `answer`
fragment, a `content_type`, a `content_status` and a `finished` flag.
The class `ExcelAgentWithSSE` keeps a map `activeComponents` of live
section handles (one per content type), a `currentStreamingMessage`
(the growing session document) and dispatches each message through
`handleStreamingMessage` into per-type handlers.

The shallow embedding below models the DOM-visible state: the session
document is the list of sections ever created (in creation order, each
recording which streaming message / session it was appended to), the
`activeComponents` map is a function from content type to an optional
index into that list, and side effects of `finalize` (copy button,
export button, `completed` class) are counted per section.
-/

/-- The five content-type slots of the reducer (`app.js`
`handleStreamingMessage`'s switch). -/
inductive CType where
  | code
  | data
  | result
  | error
  | text
deriving DecidableEq, Repr, BEq

/-- The DOM contents of a data-table section
(`initializeDataTable`): the `<thead>` rows, the `<tbody>` rows, the
text-fallback divs appended below the table, and the
`headerInitialized` flag of the handle. -/
structure DataTable where
  headerRows : List (List String)
  bodyRows : List (List String)
  extras : List String
  headerInitialized : Bool
deriving DecidableEq, Repr, BEq

/-- Content of one rendered section.  `codeB` is the `<code>` element's
growing `textContent` (code sections); `dataB` is a data table;
`blockB` is the list of formatted blocks of a result / error / text
section. -/
inductive SectionBody where
  | codeB (buffer : String)
  | dataB (t : DataTable)
  | blockB (blocks : List String)
deriving DecidableEq, Repr, BEq

/-- One section container appended to a streaming message
(`initializeCodeBlock`, `initializeDataTable`, ...).  `sessionId`
records which streaming message (session) the container was appended
to; `finalizeCount` counts the finalize side effects applied to it
(copy button for code, export button for data, `completed` class for
result). -/
structure RSection where
  ctype : CType
  body : SectionBody
  sessionId : Nat
  finalizeCount : Nat
deriving DecidableEq, Repr, BEq

/-- A domain message (`data.data` on the wire): `answer` fragment,
optional `content_type` and `content_status` fields (absent fields are
`none`), and the session-terminal `finished` flag. -/
structure Message where
  answer : String
  content_type : Option String
  content_status : Option String
  finished : Int
deriving DecidableEq, Repr, BEq

/-- A wire envelope `\x7bcode, data\x7d` (`src/frontend/app.js:145`). -/
structure Envelope where
  code : Int
  data : Message
deriving DecidableEq, Repr, BEq

/-- Client state of `ExcelAgentWithSSE`: `doc` is the list of all
section containers ever appended (the DOM keeps them after their
handle is released), `active` is the `activeComponents` map holding
for each content type an optional reference (index) to its live
section, `curMsg` is `currentStreamingMessage` (the ordinal of the
open session, `none` when null), `nextSession` numbers sessions,
`loading` is the loading indicator and `esOpen` the `eventSource`
handle. -/
structure ClientState where
  doc : List RSection
  active : CType → Option Nat
  curMsg : Option Nat
  nextSession : Nat
  loading : Bool
  esOpen : Bool

/-- `this.activeComponents[t] = v` (or `delete` for `none`). -/
def setSlot (f : CType → Option Nat) (t : CType) (v : Option Nat) :
    CType → Option Nat :=
  fun u => if u = t then v else f u

/- ### String utilities of the source -/

def fenceOpen : List Char := "```python".toList

def fenceMark : List Char := "```".toList

/-- `code.replace(/```python\n?|\n?```/g, '')` in `appendToCodeBlock`
(`src/frontend/app.js:324`): global leftmost scan; at each position the
first alternative `"```python"` plus an optional newline is tried, then
the second, a greedy optional newline followed by `"```"`. -/
def stripFences : Nat → List Char → List Char
  | 0, cs => cs
  | _ + 1, [] => []
  | n + 1, c :: rest =>
    let cs := c :: rest
    if fenceOpen.isPrefixOf cs then
      match cs.drop 9 with
      | '\n' :: r2 => stripFences n r2
      | r => stripFences n r
    else if c == '\n' && fenceMark.isPrefixOf rest then
      stripFences n (rest.drop 3)
    else if fenceMark.isPrefixOf cs then
      stripFences n (cs.drop 3)
    else
      c :: stripFences n rest

/-- The fence-stripping step of `appendToCodeBlock`. -/
def cleanCode (s : String) : String :=
  String.mk (stripFences (s.length + 1) s.data)

def star : Char := '*'

/-- For the bold pass of `formatText`: after an opening `**`, find the
lazily-shortest group (no newline, `.` does not match line breaks in a
JS regex) closed by `**`; return the group and the remainder. -/
def findClose2 : List Char → Option (List Char × List Char)
  | [] => none
  | c :: rest =>
    if c == '\n' then none
    else if c == star then
      match rest with
      | c2 :: rest2 =>
        if c2 == star then some ([], rest2)
        else (findClose2 rest).map (fun p => (c :: p.1, p.2))
      | [] => none
    else (findClose2 rest).map (fun p => (c :: p.1, p.2))

/-- For the italic pass of `formatText`: after an opening `*`, the
lazily-shortest newline-free group closed by `*`. -/
def findClose1 : List Char → Option (List Char × List Char)
  | [] => none
  | c :: rest =>
    if c == '\n' then none
    else if c == star then some ([], rest)
    else (findClose1 rest).map (fun p => (c :: p.1, p.2))

/-- `text.replace(/\*\*(.*?)\*\*/g, '<strong>$1</strong>')`. -/
def replaceBold : Nat → List Char → List Char
  | 0, cs => cs
  | _ + 1, [] => []
  | n + 1, c :: rest =>
    if c == star then
      match rest with
      | c2 :: rest2 =>
        if c2 == star then
          match findClose2 rest2 with
          | some (g, r) =>
            "<strong>".toList ++ g ++ "</strong>".toList ++ replaceBold n r
          | none => c :: replaceBold n rest
        else c :: replaceBold n rest
      | [] => [c]
    else c :: replaceBold n rest

/-- `text.replace(/\*(.*?)\*/g, '<em>$1</em>')`. -/
def replaceItalic : Nat → List Char → List Char
  | 0, cs => cs
  | _ + 1, [] => []
  | n + 1, c :: rest =>
    if c == star then
      match findClose1 rest with
      | some (g, r) => "<em>".toList ++ g ++ "</em>".toList ++ replaceItalic n r
      | none => c :: replaceItalic n rest
    else c :: replaceItalic n rest

/-- `text.replace(/\n/g, '<br>')`. -/
def replaceBreaks : List Char → List Char
  | [] => []
  | c :: rest =>
    if c == '\n' then "<br>".toList ++ replaceBreaks rest
    else c :: replaceBreaks rest

/-- `formatText` (`src/frontend/app.js:647`): bold, then italic, then
line-break markup. -/
def formatText (s : String) : String :=
  let l1 := replaceBold (s.length + 1) s.data
  let l2 := replaceItalic (l1.length + 1) l1
  String.mk (replaceBreaks l2)

/- ### The JSON value model

`appendToDataTable` feeds each fragment to the host `JSON.parse`
builtin.  `Json` models the parsed values; `parseJson` models
`JSON.parse` on the JSON subset the protocol exercises (objects,
arrays, strings, integer numbers, booleans, null); fragments outside
that subset fail to parse, matching the renderer's catch-all fallback
path. -/

inductive Json where
  | null
  | bool (b : Bool)
  | num (n : Int)
  | str (s : String)
  | arr (xs : List Json)
  | obj (kvs : List (String × Json))

def lbrace : Char := Char.ofNat 123

def rbrace : Char := Char.ofNat 125

/-- JSON whitespace skipping of `JSON.parse`. -/
def skipWs : List Char → List Char
  | [] => []
  | c :: rest =>
    if c == ' ' || c == '\n' || c == '\t' || c == '\r' then skipWs rest
    else c :: rest

def digitsToNat (ds : List Char) : Nat :=
  ds.foldl (fun a c => a * 10 + (c.toNat - 48)) 0

/-- Number parsing.  The JSON grammar allows the integer part `0` or a
non-zero digit followed by digits, so a leading zero before another
digit (as in `007`) is a `SyntaxError`; fractions and exponents are
outside the modelled subset and are rejected. -/
def parseNumberJ (cs : List Char) : Option (Json × List Char) :=
  let p := match cs with
    | '-' :: r => (true, r)
    | _ => (false, cs)
  let q := p.2.span (fun c => c.isDigit)
  if q.1.isEmpty then none
  else
    match q.1 with
    | '0' :: _ :: _ => none
    | _ =>
      match q.2 with
      | '.' :: _ => none
      | 'e' :: _ => none
      | 'E' :: _ => none
      | _ =>
        let n : Int := Int.ofNat (digitsToNat q.1)
        some (.num (if p.1 then -n else n), q.2)

/-- String-literal body after the opening quote; the usual
single-character escapes. -/
def parseStringBody : Nat → List Char → Option (String × List Char)
  | 0, _ => none
  | _ + 1, [] => none
  | n + 1, c :: rest =>
    if c == '"' then some ("", rest)
    else if c == '\\' then
      match rest with
      | e :: rest2 =>
        let ec : Option Char :=
          if e == '"' then some '"'
          else if e == '\\' then some '\\'
          else if e == '/' then some '/'
          else if e == 'n' then some '\n'
          else if e == 't' then some '\t'
          else if e == 'r' then some '\r'
          else none
        match ec with
        | some ch =>
          (parseStringBody n rest2).map (fun p => (String.mk (ch :: p.1.data), p.2))
        | none => none
      | [] => none
    else (parseStringBody n rest).map (fun p => (String.mk (c :: p.1.data), p.2))

mutual

def parseValueJ : Nat → List Char → Option (Json × List Char)
  | 0, _ => none
  | n + 1, cs =>
    match skipWs cs with
    | [] => none
    | c :: rest =>
      if c == '"' then (parseStringBody n rest).map (fun p => (.str p.1, p.2))
      else if c == '[' then parseArrayJ n (skipWs rest)
      else if c == lbrace then parseObjJ n (skipWs rest)
      else
        match c :: rest with
        | 'n' :: 'u' :: 'l' :: 'l' :: r => some (.null, r)
        | 't' :: 'r' :: 'u' :: 'e' :: r => some (.bool true, r)
        | 'f' :: 'a' :: 'l' :: 's' :: 'e' :: r => some (.bool false, r)
        | cs2 => parseNumberJ cs2

def parseArrayJ : Nat → List Char → Option (Json × List Char)
  | 0, _ => none
  | n + 1, cs =>
    match cs with
    | [] => none
    | c :: rest =>
      if c == ']' then some (.arr [], rest)
      else
        match parseValueJ n (c :: rest) with
        | some (v, r) => parseArrayTail n [v] (skipWs r)
        | none => none

def parseArrayTail : Nat → List Json → List Char → Option (Json × List Char)
  | 0, _, _ => none
  | n + 1, acc, cs =>
    match cs with
    | [] => none
    | c :: rest =>
      if c == ']' then some (.arr acc, rest)
      else if c == ',' then
        match parseValueJ n (skipWs rest) with
        | some (v, r) => parseArrayTail n (acc ++ [v]) (skipWs r)
        | none => none
      else none

def parseObjJ : Nat → List Char → Option (Json × List Char)
  | 0, _ => none
  | n + 1, cs =>
    match cs with
    | [] => none
    | c :: rest =>
      if c == rbrace then some (.obj [], rest)
      else parseMemberJ n [] (c :: rest)

def parseMemberJ : Nat → List (String × Json) → List Char →
    Option (Json × List Char)
  | 0, _, _ => none
  | n + 1, acc, cs =>
    match skipWs cs with
    | [] => none
    | c :: rest =>
      if c == '"' then
        match parseStringBody n rest with
        | some (k, r1) =>
          match skipWs r1 with
          | c2 :: r2 =>
            if c2 == ':' then
              match parseValueJ n (skipWs r2) with
              | some (v, r3) =>
                match skipWs r3 with
                | c3 :: r4 =>
                  if c3 == ',' then parseMemberJ n (acc ++ [(k, v)]) r4
                  else if c3 == rbrace then some (.obj (acc ++ [(k, v)]), r4)
                  else none
                | [] => none
              | none => none
            else none
          | [] => none
        | none => none
      else none

end

/-- Model of the host `JSON.parse`: parse one value and require only
trailing whitespace. -/
def parseJson (input : String) : Option Json :=
  match parseValueJ (4 * input.length + 4) input.data with
  | some (v, rest) => if (skipWs rest).isEmpty then some v else none
  | none => none

/- ### JavaScript value semantics used by `renderDataTable` -/

/-- `typeof v === 'object'` for a parsed JSON value: arrays, objects
and `null` all have typeof `'object'` in JavaScript. -/
def jsTypeofObject : Json → Bool
  | .arr _ => true
  | .obj _ => true
  | .null => true
  | _ => false

/-- `Object.keys(v)`: `none` models the `TypeError` thrown on `null`;
arrays yield their index strings; primitives yield an empty list. -/
def objKeys : Json → Option (List String)
  | .obj kvs => some (kvs.map Prod.fst)
  | .arr xs => some ((List.range xs.length).map toString)
  | .null => none
  | _ => some []

/-- `Object.values(v)`: `none` models the `TypeError` thrown on
`null`. -/
def objValues : Json → Option (List Json)
  | .obj kvs => some (kvs.map Prod.snd)
  | .arr xs => some xs
  | .null => none
  | _ => some []

mutual

/-- Element conversion inside the implicit `String(array)` join:
`null` prints empty, nested arrays join recursively with commas. -/
def jsElemString : Json → String
  | .null => ""
  | .num n => toString n
  | .str s => s
  | .bool b => if b then "true" else "false"
  | .obj _ => "[object Object]"
  | .arr xs => jsArrString xs

/-- The comma join of `String(array)`. -/
def jsArrString : List Json → String
  | [] => ""
  | [x] => jsElemString x
  | x :: y :: xs => jsElemString x ++ "," ++ jsArrString (y :: xs)

end

/-- `td.textContent = cell || ''`: falsy cells (`0`, `""`, `false`,
`null`) render empty; other values stringify the JavaScript way. -/
def cellText (v : Json) : String :=
  match v with
  | .num n => if n = 0 then "" else toString n
  | .str s => s
  | .bool b => if b then "true" else ""
  | .null => ""
  | .arr xs => jsArrString xs
  | .obj _ => "[object Object]"

/-- The row loop of `renderDataTable` (`data.forEach(row => ...)`,
`src/frontend/app.js:405`): array rows map cells, object rows map
`Object.values`, other rows append an empty `<tr>`; a thrown
`TypeError` (`null` row) stops the loop, returning the rows already
appended and a throw flag. -/
def addRowsF : List Json → DataTable → DataTable × Bool
  | [], t => (t, false)
  | row :: rest, t =>
    match row with
    | .arr cells =>
      addRowsF rest { t with bodyRows := t.bodyRows ++ [cells.map cellText] }
    | _ =>
      if jsTypeofObject row then
        match objValues row with
        | none => (t, true)
        | some vs =>
          addRowsF rest { t with bodyRows := t.bodyRows ++ [vs.map cellText] }
      else
        addRowsF rest { t with bodyRows := t.bodyRows ++ [[]] }

/-- `renderDataTable` (`src/frontend/app.js:385`) on a parsed value:
returns the updated table and a flag marking a thrown `TypeError`
(mutations already applied before the throw are kept, as in the DOM). -/
def renderDataTableJson (t : DataTable) (v : Json) : DataTable × Bool :=
  match v with
  | .arr xs =>
    match xs with
    | [] => (t, false)
    | x0 :: _ =>
      if !t.headerInitialized && jsTypeofObject x0 then
        match objKeys x0 with
        | none => (t, true)
        | some ks =>
          addRowsF xs
            { t with headerRows := t.headerRows ++ [ks], headerInitialized := true }
      else addRowsF xs t
  | _ =>
    if jsTypeofObject v then
      if !t.headerInitialized then
        match objKeys v with
        | none => (t, true)
        | some ks =>
          let t1 := { t with headerRows := t.headerRows ++ [ks],
                             headerInitialized := true }
          match objValues v with
          | none => (t1, true)
          | some vs =>
            ({ t1 with bodyRows := t1.bodyRows ++ [vs.map cellText] }, false)
      else
        match objValues v with
        | none => (t, true)
        | some vs =>
          ({ t with bodyRows := t.bodyRows ++ [vs.map cellText] }, false)
    else (t, false)

/-- `renderDataTableAsText` (`src/frontend/app.js:447`): append the
fragment as one formatted text div below the table. -/
def renderDataTableAsTextT (answer : String) (t : DataTable) : DataTable :=
  { t with extras := t.extras ++ [formatText answer] }

/- ### Section lifecycle (per content type) -/

/-- Append a fresh section container to the current streaming message
and return its index; the section records the open session's ordinal. -/
def newSection (t : CType) (b : SectionBody) (s : ClientState) :
    ClientState × Nat :=
  (⟨s.doc ++ [⟨t, b, s.curMsg.getD 0, 0⟩], s.active, s.curMsg, s.nextSession,
     s.loading, s.esOpen⟩, s.doc.length)

/-- `initializeCodeBlock` (`src/frontend/app.js:304`). -/
def initializeCodeBlock (s : ClientState) : ClientState :=
  let p := newSection .code (.codeB "") s
  ⟨p.1.doc, setSlot p.1.active .code (some p.2), p.1.curMsg, p.1.nextSession,
    p.1.loading, p.1.esOpen⟩

/-- `initializeDataTable` (`src/frontend/app.js:344`). -/
def initializeDataTable (s : ClientState) : ClientState :=
  let p := newSection .data (.dataB ⟨[], [], [], false⟩) s
  ⟨p.1.doc, setSlot p.1.active .data (some p.2), p.1.curMsg, p.1.nextSession,
    p.1.loading, p.1.esOpen⟩

/-- `initializeResultSection` (`src/frontend/app.js:469`). -/
def initializeResultSection (s : ClientState) : ClientState :=
  let p := newSection .result (.blockB []) s
  ⟨p.1.doc, setSlot p.1.active .result (some p.2), p.1.curMsg, p.1.nextSession,
    p.1.loading, p.1.esOpen⟩

/-- `initializeErrorSection` (`src/frontend/app.js:505`). -/
def initializeErrorSection (s : ClientState) : ClientState :=
  let p := newSection .error (.blockB []) s
  ⟨p.1.doc, setSlot p.1.active .error (some p.2), p.1.curMsg, p.1.nextSession,
    p.1.loading, p.1.esOpen⟩

/-- `initializeTextSection` (`src/frontend/app.js:538`). -/
def initializeTextSection (s : ClientState) : ClientState :=
  let p := newSection .text (.blockB []) s
  ⟨p.1.doc, setSlot p.1.active .text (some p.2), p.1.curMsg, p.1.nextSession,
    p.1.loading, p.1.esOpen⟩

/-- The accumulation step of `appendToCodeBlock`
(`src/frontend/app.js:323`): strip fences and concatenate into the
active code buffer. -/
def appendCodeCore (answer : String) (s1 : ClientState) : ClientState :=
  match s1.active .code with
  | some idx =>
    match s1.doc.get? idx with
    | some sec =>
      match sec.body with
      | .codeB buf =>
        ⟨s1.doc.set idx { sec with body := .codeB (buf ++ cleanCode answer) },
          s1.active, s1.curMsg, s1.nextSession, s1.loading, s1.esOpen⟩
      | _ => s1
    | none => s1
  | none => s1

/-- `appendToCodeBlock` (`src/frontend/app.js:319`): initialize on a
missing handle, then accumulate. -/
def appendToCodeBlock (answer : String) (s : ClientState) : ClientState :=
  appendCodeCore answer
    (if (s.active .code).isNone then initializeCodeBlock s else s)

/-- The accumulation step of `appendToDataTable`
(`src/frontend/app.js:374`): try `JSON.parse` and `renderDataTable`,
falling back to `renderDataTableAsText` when parsing (or rendering)
throws. -/
def appendDataCore (answer : String) (s1 : ClientState) : ClientState :=
  match s1.active .data with
  | some idx =>
    match s1.doc.get? idx with
    | some sec =>
      match sec.body with
      | .dataB t =>
        let t2 :=
          match parseJson answer with
          | none => renderDataTableAsTextT answer t
          | some v =>
            let p := renderDataTableJson t v
            if p.2 then renderDataTableAsTextT answer p.1 else p.1
        ⟨s1.doc.set idx { sec with body := .dataB t2 },
          s1.active, s1.curMsg, s1.nextSession, s1.loading, s1.esOpen⟩
      | _ => s1
    | none => s1
  | none => s1

/-- `appendToDataTable` (`src/frontend/app.js:369`): initialize on a
missing handle, then run the try/catch accumulation step. -/
def appendToDataTable (answer : String) (s : ClientState) : ClientState :=
  appendDataCore answer
    (if (s.active .data).isNone then initializeDataTable s else s)

/-- The accumulation step of `appendToResultSection`
(`src/frontend/app.js:488`): append one formatted block. -/
def appendResultCore (answer : String) (s1 : ClientState) : ClientState :=
  match s1.active .result with
  | some idx =>
    match s1.doc.get? idx with
    | some sec =>
      match sec.body with
      | .blockB bs =>
        ⟨s1.doc.set idx { sec with body := .blockB (bs ++ [formatText answer]) },
          s1.active, s1.curMsg, s1.nextSession, s1.loading, s1.esOpen⟩
      | _ => s1
    | none => s1
  | none => s1

/-- `appendToResultSection` (`src/frontend/app.js:484`). -/
def appendToResultSection (answer : String) (s : ClientState) : ClientState :=
  appendResultCore answer
    (if (s.active .result).isNone then initializeResultSection s else s)

/-- The accumulation step of `appendToErrorSection`
(`src/frontend/app.js:524`): append one formatted block. -/
def appendErrorCore (answer : String) (s1 : ClientState) : ClientState :=
  match s1.active .error with
  | some idx =>
    match s1.doc.get? idx with
    | some sec =>
      match sec.body with
      | .blockB bs =>
        ⟨s1.doc.set idx { sec with body := .blockB (bs ++ [formatText answer]) },
          s1.active, s1.curMsg, s1.nextSession, s1.loading, s1.esOpen⟩
      | _ => s1
    | none => s1
  | none => s1

/-- `appendToErrorSection` (`src/frontend/app.js:520`). -/
def appendToErrorSection (answer : String) (s : ClientState) : ClientState :=
  appendErrorCore answer
    (if (s.active .error).isNone then initializeErrorSection s else s)

/-- The accumulation step of `appendToTextSection`
(`src/frontend/app.js:551`): append one formatted block. -/
def appendTextCore (answer : String) (s1 : ClientState) : ClientState :=
  match s1.active .text with
  | some idx =>
    match s1.doc.get? idx with
    | some sec =>
      match sec.body with
      | .blockB bs =>
        ⟨s1.doc.set idx { sec with body := .blockB (bs ++ [formatText answer]) },
          s1.active, s1.curMsg, s1.nextSession, s1.loading, s1.esOpen⟩
      | _ => s1
    | none => s1
  | none => s1

/-- `appendToTextSection` (`src/frontend/app.js:547`). -/
def appendToTextSection (answer : String) (s : ClientState) : ClientState :=
  appendTextCore answer
    (if (s.active .text).isNone then initializeTextSection s else s)

/-- Record one finalize side effect on the section at `idx`. -/
def bumpFinalize (doc : List RSection) (idx : Nat) : List RSection :=
  match doc.get? idx with
  | some sec => doc.set idx { sec with finalizeCount := sec.finalizeCount + 1 }
  | none => doc

/-- `finalizeCodeBlock` (`src/frontend/app.js:330`): only with a live
handle, append the copy button and release the handle. -/
def finalizeCodeBlock (s : ClientState) : ClientState :=
  match s.active .code with
  | none => s
  | some idx =>
    ⟨bumpFinalize s.doc idx, setSlot s.active .code none, s.curMsg,
      s.nextSession, s.loading, s.esOpen⟩

/-- `finalizeDataTable` (`src/frontend/app.js:455`): only with a live
handle, append the export button and release the handle. -/
def finalizeDataTable (s : ClientState) : ClientState :=
  match s.active .data with
  | none => s
  | some idx =>
    ⟨bumpFinalize s.doc idx, setSlot s.active .data none, s.curMsg,
      s.nextSession, s.loading, s.esOpen⟩

/-- `finalizeResultSection` (`src/frontend/app.js:495`): only with a
live handle, add the `completed` class and release the handle. -/
def finalizeResultSection (s : ClientState) : ClientState :=
  match s.active .result with
  | none => s
  | some idx =>
    ⟨bumpFinalize s.doc idx, setSlot s.active .result none, s.curMsg,
      s.nextSession, s.loading, s.esOpen⟩

/-- `finalizeErrorSection` (`src/frontend/app.js:531`): release the
handle (no DOM side effect). -/
def finalizeErrorSection (s : ClientState) : ClientState :=
  match s.active .error with
  | none => s
  | some _ =>
    ⟨s.doc, setSlot s.active .error none, s.curMsg, s.nextSession, s.loading,
      s.esOpen⟩

/-- `finalizeTextSection` (`src/frontend/app.js:558`): release the
handle (no DOM side effect). -/
def finalizeTextSection (s : ClientState) : ClientState :=
  match s.active .text with
  | none => s
  | some _ =>
    ⟨s.doc, setSlot s.active .text none, s.curMsg, s.nextSession, s.loading,
      s.esOpen⟩

/- ### Per-type status dispatch and the session reducer -/

/-- `handleCodeContent` (`src/frontend/app.js:223`): the status switch;
any status other than `start` / `in_progress` / `end` (including an
absent one) falls to the default append branch. -/
def handleCodeContent (answer : String) (status : Option String)
    (s : ClientState) : ClientState :=
  if status = some "start" then initializeCodeBlock s
  else if status = some "in_progress" then appendToCodeBlock answer s
  else if status = some "end" then finalizeCodeBlock s
  else appendToCodeBlock answer s

/-- `handleDataContent` (`src/frontend/app.js:239`). -/
def handleDataContent (answer : String) (status : Option String)
    (s : ClientState) : ClientState :=
  if status = some "start" then initializeDataTable s
  else if status = some "in_progress" then appendToDataTable answer s
  else if status = some "end" then finalizeDataTable s
  else appendToDataTable answer s

/-- `handleResultContent` (`src/frontend/app.js:255`). -/
def handleResultContent (answer : String) (status : Option String)
    (s : ClientState) : ClientState :=
  if status = some "start" then initializeResultSection s
  else if status = some "in_progress" then appendToResultSection answer s
  else if status = some "end" then finalizeResultSection s
  else appendToResultSection answer s

/-- `handleErrorContent` (`src/frontend/app.js:271`). -/
def handleErrorContent (answer : String) (status : Option String)
    (s : ClientState) : ClientState :=
  if status = some "start" then initializeErrorSection s
  else if status = some "in_progress" then appendToErrorSection answer s
  else if status = some "end" then finalizeErrorSection s
  else appendToErrorSection answer s

/-- `handleTextContent` (`src/frontend/app.js:287`). -/
def handleTextContent (answer : String) (status : Option String)
    (s : ClientState) : ClientState :=
  if status = some "start" then initializeTextSection s
  else if status = some "in_progress" then appendToTextSection answer s
  else if status = some "end" then finalizeTextSection s
  else appendToTextSection answer s

/-- The content-type normalization of `handleStreamingMessage`'s
switch: any value other than the four named types (including an absent
field) takes the default branch, i.e. the text slot. -/
def normalizeType (ct : Option String) : CType :=
  if ct = some "code" then .code
  else if ct = some "data" then .data
  else if ct = some "result" then .result
  else if ct = some "error" then .error
  else .text

/-- The content dispatch of `handleStreamingMessage`
(`src/frontend/app.js:200`). -/
def dispatchContent (m : Message) (s : ClientState) : ClientState :=
  match normalizeType m.content_type with
  | .code => handleCodeContent m.answer m.content_status s
  | .data => handleDataContent m.answer m.content_status s
  | .result => handleResultContent m.answer m.content_status s
  | .error => handleErrorContent m.answer m.content_status s
  | .text => handleTextContent m.answer m.content_status s

/-- `finishStreaming` (`src/frontend/app.js:655`): hide the loading
indicator, release the streaming message and close the event source.
The `activeComponents` map and the rendered document are untouched. -/
def finishStreaming (s : ClientState) : ClientState :=
  ⟨s.doc, s.active, none, s.nextSession, false, false⟩

/-- `handleStreamingMessage` (`src/frontend/app.js:194`): drop the
message when no streaming message is open; otherwise dispatch it to
its slot and, when `finished == 1`, run `finishStreaming` afterwards. -/
def handleStreamingMessage (m : Message) (s : ClientState) : ClientState :=
  if (s.curMsg).isNone then s
  else
    let s1 := dispatchContent m s
    if m.finished = 1 then finishStreaming s1 else s1

/-- The envelope guard of `eventSource.onmessage`
(`src/frontend/app.js:146`): only envelopes with `code === 0` are
handled; all others are silently ignored. -/
def processEnvelope (e : Envelope) (s : ClientState) : ClientState :=
  if e.code = 0 then handleStreamingMessage e.data s else s

/-- Session start (`streamQueryResults`, `src/frontend/app.js:135`):
create a fresh streaming message and open the event source; the
`activeComponents` map is not reset. -/
def startSession (s : ClientState) : ClientState :=
  ⟨s.doc, s.active, some s.nextSession, s.nextSession + 1, true, true⟩

/-- Constructor state of `ExcelAgentWithSSE`. -/
def initState : ClientState :=
  ⟨[], fun _ => none, none, 0, false, false⟩

/-- Fold a message sequence through the reducer in delivery order. -/
def processMessages (ms : List Message) (s : ClientState) : ClientState :=
  ms.foldl (fun st m => handleStreamingMessage m st) s

/-- Shorthand for building a message. -/
def mkMsg (a : String) (ct cs : Option String) (f : Int) : Message :=
  ⟨a, ct, cs, f⟩

/-- Scenario for claim C2: one `result` fragment, then a well-formed
terminal message (`finished: 1`) addressed to the `text` slot. -/
def runC2 : ClientState :=
  processMessages
    [mkMsg "done" (some "result") (some "in_progress") 0,
     mkMsg "" (some "text") (some "end") 1]
    (startSession initState)

/-- Scenario for claim C7: a `data` section fed the two record-array
fragments of the spec. -/
def runC7 : ClientState :=
  processMessages
    [mkMsg "" (some "data") (some "start") 0,
     mkMsg "[\x7b\"a\":1,\"b\":2\x7d]" (some "data") (some "in_progress") 0,
     mkMsg "[\x7b\"a\":3,\"b\":4\x7d]" (some "data") (some "in_progress") 0]
    (startSession initState)

/-- Scenario for claim C9: session 0 ends (`finished: 1`) while the
code slot is still accumulating `"A"`; a new session starts and a code
fragment `"B"` arrives. -/
def runC9 : ClientState :=
  processMessages [mkMsg "B" (some "code") (some "in_progress") 0]
    (startSession
      (processMessages
        [mkMsg "" (some "code") (some "start") 0,
         mkMsg "A" (some "code") (some "in_progress") 0,
         mkMsg "" (some "text") (some "end") 1]
        (startSession initState)))

theorem setSlot_self (f : CType → Option Nat) (t : CType) (v : Option Nat) :
    setSlot f t v t = v := by
  simp [setSlot]

theorem setSlot_ne (f : CType → Option Nat) {t u : CType} (v : Option Nat)
    (h : u ≠ t) : setSlot f t v u = f u := by
  simp [setSlot, h]

theorem set_get?_eq_of_lt {α : Type _} (l : List α) (i : Nat) (a : α)
    (h : i < l.length) : (l.set i a).get? i = some a := by
  induction l generalizing i with
  | nil => exact absurd h (Nat.not_lt_zero i)
  | cons x xs ih =>
    cases i with
    | zero => rfl
    | succ n => exact ih n (Nat.lt_of_succ_lt_succ h)

theorem initCode_active_ne (s : ClientState) {t : CType}
    (h : t ≠ CType.code) : (initializeCodeBlock s).active t = s.active t := by
  simp [initializeCodeBlock, newSection, setSlot, h]

theorem initData_active_ne (s : ClientState) {t : CType}
    (h : t ≠ CType.data) : (initializeDataTable s).active t = s.active t := by
  simp [initializeDataTable, newSection, setSlot, h]

theorem initResult_active_ne (s : ClientState) {t : CType}
    (h : t ≠ CType.result) :
    (initializeResultSection s).active t = s.active t := by
  simp [initializeResultSection, newSection, setSlot, h]

theorem initError_active_ne (s : ClientState) {t : CType}
    (h : t ≠ CType.error) :
    (initializeErrorSection s).active t = s.active t := by
  simp [initializeErrorSection, newSection, setSlot, h]

theorem initText_active_ne (s : ClientState) {t : CType}
    (h : t ≠ CType.text) : (initializeTextSection s).active t = s.active t := by
  simp [initializeTextSection, newSection, setSlot, h]

theorem appendCodeCore_active (a : String) (s1 : ClientState) :
    (appendCodeCore a s1).active = s1.active := by
  unfold appendCodeCore
  repeat' split
  all_goals rfl

theorem appendDataCore_active (a : String) (s1 : ClientState) :
    (appendDataCore a s1).active = s1.active := by
  unfold appendDataCore
  repeat' split
  all_goals rfl

theorem appendResultCore_active (a : String) (s1 : ClientState) :
    (appendResultCore a s1).active = s1.active := by
  unfold appendResultCore
  repeat' split
  all_goals rfl

theorem appendErrorCore_active (a : String) (s1 : ClientState) :
    (appendErrorCore a s1).active = s1.active := by
  unfold appendErrorCore
  repeat' split
  all_goals rfl

theorem appendTextCore_active (a : String) (s1 : ClientState) :
    (appendTextCore a s1).active = s1.active := by
  unfold appendTextCore
  repeat' split
  all_goals rfl

theorem appendCode_active_eq (a : String) (s : ClientState) :
    (appendToCodeBlock a s).active
      = (if (s.active .code).isNone then initializeCodeBlock s else s).active := by
  unfold appendToCodeBlock
  exact appendCodeCore_active a _

theorem appendData_active_eq (a : String) (s : ClientState) :
    (appendToDataTable a s).active
      = (if (s.active .data).isNone then initializeDataTable s else s).active := by
  unfold appendToDataTable
  exact appendDataCore_active a _

theorem appendResult_active_eq (a : String) (s : ClientState) :
    (appendToResultSection a s).active
      = (if (s.active .result).isNone then initializeResultSection s else s).active := by
  unfold appendToResultSection
  exact appendResultCore_active a _

theorem appendError_active_eq (a : String) (s : ClientState) :
    (appendToErrorSection a s).active
      = (if (s.active .error).isNone then initializeErrorSection s else s).active := by
  unfold appendToErrorSection
  exact appendErrorCore_active a _

theorem appendText_active_eq (a : String) (s : ClientState) :
    (appendToTextSection a s).active
      = (if (s.active .text).isNone then initializeTextSection s else s).active := by
  unfold appendToTextSection
  exact appendTextCore_active a _

theorem appendCode_active_ne (a : String) (s : ClientState) {t : CType}
    (h : t ≠ CType.code) : (appendToCodeBlock a s).active t = s.active t := by
  rw [appendCode_active_eq]
  split
  · exact initCode_active_ne s h
  · rfl

theorem appendData_active_ne (a : String) (s : ClientState) {t : CType}
    (h : t ≠ CType.data) : (appendToDataTable a s).active t = s.active t := by
  rw [appendData_active_eq]
  split
  · exact initData_active_ne s h
  · rfl

theorem appendResult_active_ne (a : String) (s : ClientState) {t : CType}
    (h : t ≠ CType.result) :
    (appendToResultSection a s).active t = s.active t := by
  rw [appendResult_active_eq]
  split
  · exact initResult_active_ne s h
  · rfl

theorem appendError_active_ne (a : String) (s : ClientState) {t : CType}
    (h : t ≠ CType.error) :
    (appendToErrorSection a s).active t = s.active t := by
  rw [appendError_active_eq]
  split
  · exact initError_active_ne s h
  · rfl

theorem appendText_active_ne (a : String) (s : ClientState) {t : CType}
    (h : t ≠ CType.text) : (appendToTextSection a s).active t = s.active t := by
  rw [appendText_active_eq]
  split
  · exact initText_active_ne s h
  · rfl

theorem finalizeCode_active_ne (s : ClientState) {t : CType}
    (h : t ≠ CType.code) : (finalizeCodeBlock s).active t = s.active t := by
  unfold finalizeCodeBlock
  split
  · rfl
  · exact setSlot_ne _ _ h

theorem finalizeData_active_ne (s : ClientState) {t : CType}
    (h : t ≠ CType.data) : (finalizeDataTable s).active t = s.active t := by
  unfold finalizeDataTable
  split
  · rfl
  · exact setSlot_ne _ _ h

theorem finalizeResult_active_ne (s : ClientState) {t : CType}
    (h : t ≠ CType.result) :
    (finalizeResultSection s).active t = s.active t := by
  unfold finalizeResultSection
  split
  · rfl
  · exact setSlot_ne _ _ h

theorem finalizeError_active_ne (s : ClientState) {t : CType}
    (h : t ≠ CType.error) :
    (finalizeErrorSection s).active t = s.active t := by
  unfold finalizeErrorSection
  split
  · rfl
  · exact setSlot_ne _ _ h

theorem finalizeText_active_ne (s : ClientState) {t : CType}
    (h : t ≠ CType.text) : (finalizeTextSection s).active t = s.active t := by
  unfold finalizeTextSection
  split
  · rfl
  · exact setSlot_ne _ _ h

theorem handleCode_active_ne (a : String) (st : Option String)
    (s : ClientState) {t : CType} (h : t ≠ CType.code) :
    (handleCodeContent a st s).active t = s.active t := by
  unfold handleCodeContent
  split_ifs
  · exact initCode_active_ne s h
  · exact appendCode_active_ne a s h
  · exact finalizeCode_active_ne s h
  · exact appendCode_active_ne a s h

theorem handleData_active_ne (a : String) (st : Option String)
    (s : ClientState) {t : CType} (h : t ≠ CType.data) :
    (handleDataContent a st s).active t = s.active t := by
  unfold handleDataContent
  split_ifs
  · exact initData_active_ne s h
  · exact appendData_active_ne a s h
  · exact finalizeData_active_ne s h
  · exact appendData_active_ne a s h

theorem handleResult_active_ne (a : String) (st : Option String)
    (s : ClientState) {t : CType} (h : t ≠ CType.result) :
    (handleResultContent a st s).active t = s.active t := by
  unfold handleResultContent
  split_ifs
  · exact initResult_active_ne s h
  · exact appendResult_active_ne a s h
  · exact finalizeResult_active_ne s h
  · exact appendResult_active_ne a s h

theorem handleError_active_ne (a : String) (st : Option String)
    (s : ClientState) {t : CType} (h : t ≠ CType.error) :
    (handleErrorContent a st s).active t = s.active t := by
  unfold handleErrorContent
  split_ifs
  · exact initError_active_ne s h
  · exact appendError_active_ne a s h
  · exact finalizeError_active_ne s h
  · exact appendError_active_ne a s h

theorem handleText_active_ne (a : String) (st : Option String)
    (s : ClientState) {t : CType} (h : t ≠ CType.text) :
    (handleTextContent a st s).active t = s.active t := by
  unfold handleTextContent
  split_ifs
  · exact initText_active_ne s h
  · exact appendText_active_ne a s h
  · exact finalizeText_active_ne s h
  · exact appendText_active_ne a s h

theorem finalizeCode_of_none (s : ClientState)
    (h : s.active CType.code = none) : finalizeCodeBlock s = s := by
  unfold finalizeCodeBlock
  rw [h]

theorem finalizeData_of_none (s : ClientState)
    (h : s.active CType.data = none) : finalizeDataTable s = s := by
  unfold finalizeDataTable
  rw [h]

theorem finalizeResult_of_none (s : ClientState)
    (h : s.active CType.result = none) : finalizeResultSection s = s := by
  unfold finalizeResultSection
  rw [h]

theorem finalizeError_of_none (s : ClientState)
    (h : s.active CType.error = none) : finalizeErrorSection s = s := by
  unfold finalizeErrorSection
  rw [h]

theorem finalizeText_of_none (s : ClientState)
    (h : s.active CType.text = none) : finalizeTextSection s = s := by
  unfold finalizeTextSection
  rw [h]

theorem finalizeCode_active_none (s : ClientState) :
    (finalizeCodeBlock s).active CType.code = none := by
  unfold finalizeCodeBlock
  split
  · next h => exact h
  · show setSlot s.active CType.code none CType.code = none
    exact setSlot_self _ _ _

theorem finalizeData_active_none (s : ClientState) :
    (finalizeDataTable s).active CType.data = none := by
  unfold finalizeDataTable
  split
  · next h => exact h
  · show setSlot s.active CType.data none CType.data = none
    exact setSlot_self _ _ _

theorem finalizeResult_active_none (s : ClientState) :
    (finalizeResultSection s).active CType.result = none := by
  unfold finalizeResultSection
  split
  · next h => exact h
  · show setSlot s.active CType.result none CType.result = none
    exact setSlot_self _ _ _

theorem finalizeError_active_none (s : ClientState) :
    (finalizeErrorSection s).active CType.error = none := by
  unfold finalizeErrorSection
  split
  · next h => exact h
  · show setSlot s.active CType.error none CType.error = none
    exact setSlot_self _ _ _

theorem finalizeText_active_none (s : ClientState) :
    (finalizeTextSection s).active CType.text = none := by
  unfold finalizeTextSection
  split
  · next h => exact h
  · show setSlot s.active CType.text none CType.text = none
    exact setSlot_self _ _ _

theorem finalizeCode_idem (s : ClientState) :
    finalizeCodeBlock (finalizeCodeBlock s) = finalizeCodeBlock s :=
  finalizeCode_of_none _ (finalizeCode_active_none s)

theorem finalizeData_idem (s : ClientState) :
    finalizeDataTable (finalizeDataTable s) = finalizeDataTable s :=
  finalizeData_of_none _ (finalizeData_active_none s)

theorem finalizeResult_idem (s : ClientState) :
    finalizeResultSection (finalizeResultSection s) = finalizeResultSection s :=
  finalizeResult_of_none _ (finalizeResult_active_none s)

theorem finalizeError_idem (s : ClientState) :
    finalizeErrorSection (finalizeErrorSection s) = finalizeErrorSection s :=
  finalizeError_of_none _ (finalizeError_active_none s)

theorem finalizeText_idem (s : ClientState) :
    finalizeTextSection (finalizeTextSection s) = finalizeTextSection s :=
  finalizeText_of_none _ (finalizeText_active_none s)

theorem appendCodeCore_doc_length (a : String) (s1 : ClientState) :
    (appendCodeCore a s1).doc.length = s1.doc.length := by
  unfold appendCodeCore
  repeat' split
  all_goals simp

theorem appendDataCore_doc_length (a : String) (s1 : ClientState) :
    (appendDataCore a s1).doc.length = s1.doc.length := by
  unfold appendDataCore
  repeat' split
  all_goals simp

theorem appendResultCore_doc_length (a : String) (s1 : ClientState) :
    (appendResultCore a s1).doc.length = s1.doc.length := by
  unfold appendResultCore
  repeat' split
  all_goals simp

theorem appendErrorCore_doc_length (a : String) (s1 : ClientState) :
    (appendErrorCore a s1).doc.length = s1.doc.length := by
  unfold appendErrorCore
  repeat' split
  all_goals simp

theorem appendTextCore_doc_length (a : String) (s1 : ClientState) :
    (appendTextCore a s1).doc.length = s1.doc.length := by
  unfold appendTextCore
  repeat' split
  all_goals simp

theorem ensureCode_of_some (s : ClientState) (idx : Nat)
    (h : s.active CType.code = some idx) :
    (if (s.active CType.code).isNone then initializeCodeBlock s else s) = s := by
  rw [h]
  rfl

theorem ensureData_of_some (s : ClientState) (idx : Nat)
    (h : s.active CType.data = some idx) :
    (if (s.active CType.data).isNone then initializeDataTable s else s) = s := by
  rw [h]
  rfl

theorem ensureResult_of_some (s : ClientState) (idx : Nat)
    (h : s.active CType.result = some idx) :
    (if (s.active CType.result).isNone then initializeResultSection s else s) = s := by
  rw [h]
  rfl

theorem ensureError_of_some (s : ClientState) (idx : Nat)
    (h : s.active CType.error = some idx) :
    (if (s.active CType.error).isNone then initializeErrorSection s else s) = s := by
  rw [h]
  rfl

theorem ensureText_of_some (s : ClientState) (idx : Nat)
    (h : s.active CType.text = some idx) :
    (if (s.active CType.text).isNone then initializeTextSection s else s) = s := by
  rw [h]
  rfl

theorem appendCode_preserve (a : String) (s : ClientState) (idx : Nat)
    (h : s.active CType.code = some idx) :
    (appendToCodeBlock a s).doc.length = s.doc.length
    ∧ (appendToCodeBlock a s).active CType.code = some idx := by
  unfold appendToCodeBlock
  rw [ensureCode_of_some s idx h]
  exact ⟨appendCodeCore_doc_length a s, by rw [appendCodeCore_active]; exact h⟩

theorem appendData_preserve (a : String) (s : ClientState) (idx : Nat)
    (h : s.active CType.data = some idx) :
    (appendToDataTable a s).doc.length = s.doc.length
    ∧ (appendToDataTable a s).active CType.data = some idx := by
  unfold appendToDataTable
  rw [ensureData_of_some s idx h]
  exact ⟨appendDataCore_doc_length a s, by rw [appendDataCore_active]; exact h⟩

theorem appendResult_preserve (a : String) (s : ClientState) (idx : Nat)
    (h : s.active CType.result = some idx) :
    (appendToResultSection a s).doc.length = s.doc.length
    ∧ (appendToResultSection a s).active CType.result = some idx := by
  unfold appendToResultSection
  rw [ensureResult_of_some s idx h]
  exact ⟨appendResultCore_doc_length a s, by rw [appendResultCore_active]; exact h⟩

theorem appendError_preserve (a : String) (s : ClientState) (idx : Nat)
    (h : s.active CType.error = some idx) :
    (appendToErrorSection a s).doc.length = s.doc.length
    ∧ (appendToErrorSection a s).active CType.error = some idx := by
  unfold appendToErrorSection
  rw [ensureError_of_some s idx h]
  exact ⟨appendErrorCore_doc_length a s, by rw [appendErrorCore_active]; exact h⟩

theorem appendText_preserve (a : String) (s : ClientState) (idx : Nat)
    (h : s.active CType.text = some idx) :
    (appendToTextSection a s).doc.length = s.doc.length
    ∧ (appendToTextSection a s).active CType.text = some idx := by
  unfold appendToTextSection
  rw [ensureText_of_some s idx h]
  exact ⟨appendTextCore_doc_length a s, by rw [appendTextCore_active]; exact h⟩

theorem handleCode_end_eq (a : String) (s : ClientState) :
    handleCodeContent a (some "end") s = finalizeCodeBlock s := rfl

theorem handleData_end_eq (a : String) (s : ClientState) :
    handleDataContent a (some "end") s = finalizeDataTable s := rfl

theorem handleResult_end_eq (a : String) (s : ClientState) :
    handleResultContent a (some "end") s = finalizeResultSection s := rfl

theorem handleError_end_eq (a : String) (s : ClientState) :
    handleErrorContent a (some "end") s = finalizeErrorSection s := rfl

theorem handleText_end_eq (a : String) (s : ClientState) :
    handleTextContent a (some "end") s = finalizeTextSection s := rfl

theorem handleCode_inprog_eq (a : String) (s : ClientState) :
    handleCodeContent a (some "in_progress") s = appendToCodeBlock a s := rfl

theorem handleData_inprog_eq (a : String) (s : ClientState) :
    handleDataContent a (some "in_progress") s = appendToDataTable a s := rfl

theorem handleResult_inprog_eq (a : String) (s : ClientState) :
    handleResultContent a (some "in_progress") s = appendToResultSection a s := rfl

theorem handleError_inprog_eq (a : String) (s : ClientState) :
    handleErrorContent a (some "in_progress") s = appendToErrorSection a s := rfl

theorem handleText_inprog_eq (a : String) (s : ClientState) :
    handleTextContent a (some "in_progress") s = appendToTextSection a s := rfl

theorem handleCode_default_eq (a : String) (st : Option String)
    (s : ClientState) (h1 : st ≠ some "start") (h2 : st ≠ some "in_progress")
    (h3 : st ≠ some "end") : handleCodeContent a st s = appendToCodeBlock a s := by
  unfold handleCodeContent
  rw [if_neg h1, if_neg h2, if_neg h3]

theorem handleData_default_eq (a : String) (st : Option String)
    (s : ClientState) (h1 : st ≠ some "start") (h2 : st ≠ some "in_progress")
    (h3 : st ≠ some "end") : handleDataContent a st s = appendToDataTable a s := by
  unfold handleDataContent
  rw [if_neg h1, if_neg h2, if_neg h3]

theorem handleResult_default_eq (a : String) (st : Option String)
    (s : ClientState) (h1 : st ≠ some "start") (h2 : st ≠ some "in_progress")
    (h3 : st ≠ some "end") :
    handleResultContent a st s = appendToResultSection a s := by
  unfold handleResultContent
  rw [if_neg h1, if_neg h2, if_neg h3]

theorem handleError_default_eq (a : String) (st : Option String)
    (s : ClientState) (h1 : st ≠ some "start") (h2 : st ≠ some "in_progress")
    (h3 : st ≠ some "end") :
    handleErrorContent a st s = appendToErrorSection a s := by
  unfold handleErrorContent
  rw [if_neg h1, if_neg h2, if_neg h3]

theorem handleText_default_eq (a : String) (st : Option String)
    (s : ClientState) (h1 : st ≠ some "start") (h2 : st ≠ some "in_progress")
    (h3 : st ≠ some "end") :
    handleTextContent a st s = appendToTextSection a s := by
  unfold handleTextContent
  rw [if_neg h1, if_neg h2, if_neg h3]

theorem addRowsF_header (xs : List Json) (t : DataTable) :
    ((addRowsF xs t).1).headerRows = t.headerRows
    ∧ ((addRowsF xs t).1).headerInitialized = t.headerInitialized := by
  induction xs generalizing t with
  | nil => exact ⟨rfl, rfl⟩
  | cons row rest ih =>
    cases row with
    | arr cells => exact ih _
    | obj kvs => exact ih _
    | null => exact ⟨rfl, rfl⟩
    | num n => exact ih _
    | str s2 => exact ih _
    | bool b => exact ih _

theorem renderDataTableJson_locked (t : DataTable) (v : Json)
    (ht : t.headerInitialized = true) :
    ((renderDataTableJson t v).1).headerRows = t.headerRows := by
  cases v with
  | arr xs =>
    cases xs with
    | nil => rfl
    | cons x0 rest =>
      show ((if !t.headerInitialized && jsTypeofObject x0 then _
              else addRowsF (x0 :: rest) t).1).headerRows = t.headerRows
      rw [ht]
      exact (addRowsF_header _ _).1
  | obj kvs =>
    show ((if !t.headerInitialized then _
            else match objValues (.obj kvs) with
              | none => (t, true)
              | some vs =>
                ({ t with bodyRows := t.bodyRows ++ [vs.map cellText] },
                  false)).1).headerRows = t.headerRows
    rw [ht]
    rfl
  | null =>
    show ((if !t.headerInitialized then _
            else match objValues Json.null with
              | none => (t, true)
              | some vs =>
                ({ t with bodyRows := t.bodyRows ++ [vs.map cellText] },
                  false)).1).headerRows = t.headerRows
    rw [ht]
    rfl
  | num n => rfl
  | str s2 => rfl
  | bool b => rfl

/-- C1 counterexample: the claim says an envelope with non-zero `code`
is forwarded to the error path and renders an error section.  At the
concrete envelope `code = 1` carrying a text fragment, the client
leaves the state entirely unchanged, and in particular the document
holds no error section: the envelope is dropped silently, refuting the
claim. -/
theorem c1_nonzero_code_counterexample :
    processEnvelope ⟨1, mkMsg "boom" (some "text") (some "in_progress") 0⟩
        (startSession initState)
      = startSession initState
    ∧ ((startSession initState).doc.filter
          (fun sec => sec.ctype == CType.error)).length = 0 :=
  ⟨rfl, rfl⟩

/-- C1 amended: every inbound envelope whose `code` field is non-zero
is silently ignored by the client — the handler only runs on
`code === 0`, so the state (document, slots, session) is unchanged: no
error section is rendered and the envelope's data is not dispatched to
any content slot. -/
theorem c1_amended_nonzero_code_ignored (e : Envelope) (s : ClientState)
    (h : e.code ≠ 0) : processEnvelope e s = s := by
  unfold processEnvelope
  rw [if_neg h]

/-- C1 amended, witness at the concrete envelope `code = 2`. -/
theorem c1_amended_nonzero_code_ignored_witness :
    processEnvelope ⟨2, mkMsg "x" none none 0⟩ initState = initState :=
  c1_amended_nonzero_code_ignored _ _ (by decide)

/- ### Claim C2: the terminal message and still-accumulating slots -/

/-- C2 counterexample: the claim says that after the terminal message
is dispatched, every slot still Accumulating is finalized, so every
slot that entered Accumulating ends Finalized exactly once.  In the
concrete run `runC2` the result section entered Accumulating (it was
created and received the fragment `"done"`), yet after the
`finished: 1` message its finalize count is `0` — not `1` — and its
live handle is still present in `activeComponents`, refuting the
claim. -/
theorem c2_no_force_finalize_counterexample :
    runC2.doc.map RSection.finalizeCount = [0]
    ∧ runC2.active CType.result = some 0
    ∧ runC2.curMsg = none :=
  ⟨rfl, rfl, rfl⟩

/-- C2 amended: when a message with `finished == 1` arrives while a
streaming message is open, the client dispatches it to its slot and
then runs `finishStreaming`, which only hides the loading state,
releases the streaming message and closes the transport: the rendered
document and the `activeComponents` map are exactly those produced by
the dispatch alone, so slots still Accumulating stay Accumulating and
receive no finalize side effects. -/
theorem c2_amended_terminal_preserves_slots (m : Message) (s : ClientState)
    (h1 : m.finished = 1) (h2 : (s.curMsg).isSome) :
    (handleStreamingMessage m s).doc = (dispatchContent m s).doc
    ∧ (handleStreamingMessage m s).active = (dispatchContent m s).active := by
  have hn : (s.curMsg).isNone = false := by
    cases hc : s.curMsg
    · rw [hc] at h2
      cases h2
    · rfl
  unfold handleStreamingMessage
  rw [hn, h1]
  exact ⟨rfl, rfl⟩

/-- C2 amended, witness at a concrete terminal message and a freshly
opened session. -/
theorem c2_amended_terminal_preserves_slots_witness :
    (handleStreamingMessage (mkMsg "" (some "text") (some "end") 1)
        (startSession initState)).doc
      = (dispatchContent (mkMsg "" (some "text") (some "end") 1)
          (startSession initState)).doc
    ∧ (handleStreamingMessage (mkMsg "" (some "text") (some "end") 1)
        (startSession initState)).active
      = (dispatchContent (mkMsg "" (some "text") (some "end") 1)
          (startSession initState)).active :=
  c2_amended_terminal_preserves_slots _ _ rfl rfl

/- ### Claim C3: `end` on an Absent slot -/

/-- C3 counterexample: the claim says an `end` arriving while a slot is
Absent initializes the section and then immediately finalizes it.  At
the concrete message (`content_type: "code"`, `content_status: "end"`)
on a fresh session, the state is entirely unchanged and in particular
no section is created — the init side effect never runs, refuting the
claim. -/
theorem c3_end_on_absent_counterexample :
    handleStreamingMessage (mkMsg "" (some "code") (some "end") 0)
        (startSession initState)
      = startSession initState
    ∧ (startSession initState).doc.length = 0 :=
  ⟨rfl, rfl⟩

/-- C3 amended: for every content type, a message with
`content_status` `end` arriving while that type's slot has no live
handle (Absent or already Finalized) is a pure no-op: the finalize
functions guard on a live handle, so the state is unchanged — no
section is initialized and no finalize side effect runs. -/
theorem c3_amended_end_on_absent_noop (m : Message) (s : ClientState)
    (h1 : m.content_status = some "end")
    (h2 : s.active (normalizeType m.content_type) = none) :
    dispatchContent m s = s := by
  cases hn : normalizeType m.content_type with
  | code =>
    rw [hn] at h2
    have e1 : dispatchContent m s = handleCodeContent m.answer m.content_status s := by
      unfold dispatchContent
      rw [hn]
    rw [e1, h1, handleCode_end_eq]
    exact finalizeCode_of_none s h2
  | data =>
    rw [hn] at h2
    have e1 : dispatchContent m s = handleDataContent m.answer m.content_status s := by
      unfold dispatchContent
      rw [hn]
    rw [e1, h1, handleData_end_eq]
    exact finalizeData_of_none s h2
  | result =>
    rw [hn] at h2
    have e1 : dispatchContent m s = handleResultContent m.answer m.content_status s := by
      unfold dispatchContent
      rw [hn]
    rw [e1, h1, handleResult_end_eq]
    exact finalizeResult_of_none s h2
  | error =>
    rw [hn] at h2
    have e1 : dispatchContent m s = handleErrorContent m.answer m.content_status s := by
      unfold dispatchContent
      rw [hn]
    rw [e1, h1, handleError_end_eq]
    exact finalizeError_of_none s h2
  | text =>
    rw [hn] at h2
    have e1 : dispatchContent m s = handleTextContent m.answer m.content_status s := by
      unfold dispatchContent
      rw [hn]
    rw [e1, h1, handleText_end_eq]
    exact finalizeText_of_none s h2

/-- C3 amended, witness: an `end` for the `data` type on a fresh
state. -/
theorem c3_amended_end_on_absent_noop_witness :
    dispatchContent (mkMsg "" (some "data") (some "end") 0)
        (startSession initState)
      = startSession initState :=
  c3_amended_end_on_absent_noop _ _ rfl rfl

/- ### Claim C4: content-type normalization is total -/

/-- C4: content-type normalization is total — every `content_type`
value (including an absent one) maps to exactly one of the five slots;
any value other than the four recognized names is routed to the text
slot; and the dispatch only ever touches the slot the message's type
maps to, leaving every other slot's handle unchanged. -/
theorem c4_normalization_total :
    (∀ ct : Option String,
      normalizeType ct = CType.code ∨ normalizeType ct = CType.data
        ∨ normalizeType ct = CType.result ∨ normalizeType ct = CType.error
        ∨ normalizeType ct = CType.text)
    ∧ (∀ ct : Option String, ct ≠ some "code" → ct ≠ some "data" →
        ct ≠ some "result" → ct ≠ some "error" →
        normalizeType ct = CType.text)
    ∧ (∀ (m : Message) (s : ClientState) (t : CType),
        t ≠ normalizeType m.content_type →
        (dispatchContent m s).active t = s.active t) := by
  refine ⟨?_, ?_, ?_⟩
  · intro ct
    unfold normalizeType
    split_ifs <;> simp
  · intro ct h1 h2 h3 h4
    unfold normalizeType
    rw [if_neg h1, if_neg h2, if_neg h3, if_neg h4]
  · intro m s t h
    cases hn : normalizeType m.content_type with
    | code =>
      rw [hn] at h
      have e1 : dispatchContent m s = handleCodeContent m.answer m.content_status s := by
        unfold dispatchContent
        rw [hn]
      rw [e1]
      exact handleCode_active_ne _ _ _ h
    | data =>
      rw [hn] at h
      have e1 : dispatchContent m s = handleDataContent m.answer m.content_status s := by
        unfold dispatchContent
        rw [hn]
      rw [e1]
      exact handleData_active_ne _ _ _ h
    | result =>
      rw [hn] at h
      have e1 : dispatchContent m s = handleResultContent m.answer m.content_status s := by
        unfold dispatchContent
        rw [hn]
      rw [e1]
      exact handleResult_active_ne _ _ _ h
    | error =>
      rw [hn] at h
      have e1 : dispatchContent m s = handleErrorContent m.answer m.content_status s := by
        unfold dispatchContent
        rw [hn]
      rw [e1]
      exact handleError_active_ne _ _ _ h
    | text =>
      rw [hn] at h
      have e1 : dispatchContent m s = handleTextContent m.answer m.content_status s := by
        unfold dispatchContent
        rw [hn]
      rw [e1]
      exact handleText_active_ne _ _ _ h

/-- C4, witness: the unrecognized value `"weird"` normalizes to the
text slot, and a `code` message leaves the text slot's handle
untouched. -/
theorem c4_normalization_total_witness :
    normalizeType (some "weird") = CType.text
    ∧ (dispatchContent (mkMsg "x" (some "code") (some "in_progress") 0)
        (startSession initState)).active CType.text
      = (startSession initState).active CType.text :=
  ⟨c4_normalization_total.2.1 (some "weird") (by decide) (by decide)
      (by decide) (by decide),
   c4_normalization_total.2.2 _ _ CType.text (by decide)⟩

/- ### Claim C5: unrecognized statuses append, never re-initialize -/

/-- C5: for every content type, a message whose `content_status` is
absent or not one of `start` / `in_progress` / `end` is handled
exactly like an `in_progress` message (append semantics), and for a
slot already Accumulating such a message never re-initializes the
section: no new section container is created and the slot keeps
pointing at the same section. -/
theorem c5_unrecognized_status_appends (m : Message) (s : ClientState)
    (h1 : m.content_status ≠ some "start")
    (h2 : m.content_status ≠ some "in_progress")
    (h3 : m.content_status ≠ some "end") :
    dispatchContent m s
      = dispatchContent (mkMsg m.answer m.content_type (some "in_progress")
          m.finished) s
    ∧ (∀ idx, s.active (normalizeType m.content_type) = some idx →
        (dispatchContent m s).doc.length = s.doc.length
        ∧ (dispatchContent m s).active (normalizeType m.content_type)
            = some idx) := by
  cases hn : normalizeType m.content_type with
  | code =>
    have e1 : dispatchContent m s = handleCodeContent m.answer m.content_status s := by
      unfold dispatchContent
      rw [hn]
    have e2 : dispatchContent (mkMsg m.answer m.content_type
          (some "in_progress") m.finished) s
        = handleCodeContent m.answer (some "in_progress") s := by
      unfold dispatchContent
      rw [show (mkMsg m.answer m.content_type (some "in_progress")
            m.finished).content_type = m.content_type from rfl, hn]
      rfl
    refine ⟨?_, ?_⟩
    · rw [e1, e2, handleCode_default_eq _ _ _ h1 h2 h3, handleCode_inprog_eq]
    · intro idx hidx
      rw [e1, handleCode_default_eq _ _ _ h1 h2 h3]
      exact appendCode_preserve m.answer s idx hidx
  | data =>
    have e1 : dispatchContent m s = handleDataContent m.answer m.content_status s := by
      unfold dispatchContent
      rw [hn]
    have e2 : dispatchContent (mkMsg m.answer m.content_type
          (some "in_progress") m.finished) s
        = handleDataContent m.answer (some "in_progress") s := by
      unfold dispatchContent
      rw [show (mkMsg m.answer m.content_type (some "in_progress")
            m.finished).content_type = m.content_type from rfl, hn]
      rfl
    refine ⟨?_, ?_⟩
    · rw [e1, e2, handleData_default_eq _ _ _ h1 h2 h3, handleData_inprog_eq]
    · intro idx hidx
      rw [e1, handleData_default_eq _ _ _ h1 h2 h3]
      exact appendData_preserve m.answer s idx hidx
  | result =>
    have e1 : dispatchContent m s
        = handleResultContent m.answer m.content_status s := by
      unfold dispatchContent
      rw [hn]
    have e2 : dispatchContent (mkMsg m.answer m.content_type
          (some "in_progress") m.finished) s
        = handleResultContent m.answer (some "in_progress") s := by
      unfold dispatchContent
      rw [show (mkMsg m.answer m.content_type (some "in_progress")
            m.finished).content_type = m.content_type from rfl, hn]
      rfl
    refine ⟨?_, ?_⟩
    · rw [e1, e2, handleResult_default_eq _ _ _ h1 h2 h3,
        handleResult_inprog_eq]
    · intro idx hidx
      rw [e1, handleResult_default_eq _ _ _ h1 h2 h3]
      exact appendResult_preserve m.answer s idx hidx
  | error =>
    have e1 : dispatchContent m s
        = handleErrorContent m.answer m.content_status s := by
      unfold dispatchContent
      rw [hn]
    have e2 : dispatchContent (mkMsg m.answer m.content_type
          (some "in_progress") m.finished) s
        = handleErrorContent m.answer (some "in_progress") s := by
      unfold dispatchContent
      rw [show (mkMsg m.answer m.content_type (some "in_progress")
            m.finished).content_type = m.content_type from rfl, hn]
      rfl
    refine ⟨?_, ?_⟩
    · rw [e1, e2, handleError_default_eq _ _ _ h1 h2 h3, handleError_inprog_eq]
    · intro idx hidx
      rw [e1, handleError_default_eq _ _ _ h1 h2 h3]
      exact appendError_preserve m.answer s idx hidx
  | text =>
    have e1 : dispatchContent m s
        = handleTextContent m.answer m.content_status s := by
      unfold dispatchContent
      rw [hn]
    have e2 : dispatchContent (mkMsg m.answer m.content_type
          (some "in_progress") m.finished) s
        = handleTextContent m.answer (some "in_progress") s := by
      unfold dispatchContent
      rw [show (mkMsg m.answer m.content_type (some "in_progress")
            m.finished).content_type = m.content_type from rfl, hn]
      rfl
    refine ⟨?_, ?_⟩
    · rw [e1, e2, handleText_default_eq _ _ _ h1 h2 h3, handleText_inprog_eq]
    · intro idx hidx
      rw [e1, handleText_default_eq _ _ _ h1 h2 h3]
      exact appendText_preserve m.answer s idx hidx

/-- C5, witness: a code message with the unrecognized status
`"bogus"` behaves like `in_progress` on a state whose code slot is
Accumulating at index `0`. -/
theorem c5_unrecognized_status_appends_witness :
    dispatchContent (mkMsg "y" (some "code") (some "bogus") 0)
        ⟨[⟨CType.code, SectionBody.codeB "A", 0, 0⟩],
          setSlot (fun _ => none) CType.code (some 0), some 0, 1, true, true⟩
      = dispatchContent (mkMsg "y" (some "code") (some "in_progress") 0)
          ⟨[⟨CType.code, SectionBody.codeB "A", 0, 0⟩],
            setSlot (fun _ => none) CType.code (some 0), some 0, 1, true,
            true⟩ :=
  (c5_unrecognized_status_appends _ _ (by decide) (by decide) (by decide)).1

/- ### Claim C6: finalization is idempotent -/

/-- C6: for every content type, processing an `end` message is
idempotent — after an `end` has finalized (or found nothing to
finalize), a second identical `end` leaves the state exactly as it
was: no duplicate finalize side effects (the finalize counts are
unchanged) and no crash (the reducer is a total function). -/
theorem c6_end_idempotent (m : Message) (s : ClientState)
    (h : m.content_status = some "end") :
    dispatchContent m (dispatchContent m s) = dispatchContent m s := by
  cases hn : normalizeType m.content_type with
  | code =>
    have e1 : ∀ w : ClientState,
        dispatchContent m w = handleCodeContent m.answer m.content_status w := by
      intro w
      unfold dispatchContent
      rw [hn]
    rw [e1, e1, h]
    simp only [handleCode_end_eq]
    exact finalizeCode_idem s
  | data =>
    have e1 : ∀ w : ClientState,
        dispatchContent m w = handleDataContent m.answer m.content_status w := by
      intro w
      unfold dispatchContent
      rw [hn]
    rw [e1, e1, h]
    simp only [handleData_end_eq]
    exact finalizeData_idem s
  | result =>
    have e1 : ∀ w : ClientState,
        dispatchContent m w
          = handleResultContent m.answer m.content_status w := by
      intro w
      unfold dispatchContent
      rw [hn]
    rw [e1, e1, h]
    simp only [handleResult_end_eq]
    exact finalizeResult_idem s
  | error =>
    have e1 : ∀ w : ClientState,
        dispatchContent m w
          = handleErrorContent m.answer m.content_status w := by
      intro w
      unfold dispatchContent
      rw [hn]
    rw [e1, e1, h]
    simp only [handleError_end_eq]
    exact finalizeError_idem s
  | text =>
    have e1 : ∀ w : ClientState,
        dispatchContent m w
          = handleTextContent m.answer m.content_status w := by
      intro w
      unfold dispatchContent
      rw [hn]
    rw [e1, e1, h]
    simp only [handleText_end_eq]
    exact finalizeText_idem s

/-- C6, witness: a second `end` for the code slot after one has
already run. -/
theorem c6_end_idempotent_witness :
    dispatchContent (mkMsg "" (some "code") (some "end") 0)
        (dispatchContent (mkMsg "" (some "code") (some "end") 0)
          ⟨[⟨CType.code, SectionBody.codeB "A", 0, 0⟩],
            setSlot (fun _ => none) CType.code (some 0), some 0, 1, true,
            true⟩)
      = dispatchContent (mkMsg "" (some "code") (some "end") 0)
          ⟨[⟨CType.code, SectionBody.codeB "A", 0, 0⟩],
            setSlot (fun _ => none) CType.code (some 0), some 0, 1, true,
            true⟩ :=
  c6_end_idempotent _ _ rfl

/- ### Claim C7: data-table header lock-in -/

/-- C7: within one data section, feeding the fragment
`[\x7b"a":1,"b":2\x7d]` and then `[\x7b"a":3,"b":4\x7d]` establishes
the header row `["a","b"]` exactly once (a single header row) and
renders exactly two data rows in arrival order; moreover once a
section's header is initialized, no later fragment ever adds another
header row. -/
theorem c7_header_lock_in :
    runC7.doc.map RSection.body
      = [SectionBody.dataB ⟨[["a", "b"]], [["1", "2"], ["3", "4"]], [], true⟩]
    ∧ (∀ (t : DataTable) (v : Json), t.headerInitialized = true →
        ((renderDataTableJson t v).1).headerRows = t.headerRows) :=
  ⟨rfl, fun t v ht => renderDataTableJson_locked t v ht⟩

/-- C7, witness: a locked header is not extended by a further record
array. -/
theorem c7_header_lock_in_witness :
    ((renderDataTableJson ⟨[["a", "b"]], [["1", "2"]], [], true⟩
        (Json.arr [Json.obj [("a", Json.num 3), ("b", Json.num 4)]])).1).headerRows
      = [["a", "b"]] :=
  c7_header_lock_in.2 _ _ rfl

/- ### Claim C8: non-JSON data fragments fall back to text -/

/-- C9 counterexample: the claim says fragments from two different
sections of the same content type — including across a session
boundary — are never mixed into one section's payload.  In `runC9`,
session 0 finishes while the code slot is still Accumulating `"A"`;
`finishStreaming` does not clear `activeComponents`, so when session 1
starts and delivers the code fragment `"B"`, it is appended into the
section created in session 0: the final document holds a single code
section, tagged with session 0, whose payload `"AB"` mixes fragments
of both sessions, refuting the claim. -/
theorem c9_cross_session_mixing_counterexample :
    runC9.doc.map (fun sec => (sec.sessionId, sec.body))
      = [(0, SectionBody.codeB "AB")]
    ∧ runC9.nextSession = 2 :=
  ⟨rfl, rfl⟩

/-- C9 amended: a code fragment is always accumulated into whatever
section the code slot's live handle currently references — no new
section is created while a handle exists.  Within one session this
keeps sections isolated, but since handles survive `finishStreaming`,
a slot left Accumulating when a session ends leaks into the next
session: a later fragment is appended into the earlier session's
section. -/
theorem c9_amended_append_follows_live_handle (a : String) (s : ClientState)
    (idx : Nat) (sec : RSection) (buf : String)
    (h1 : s.active CType.code = some idx) (h2 : s.doc.get? idx = some sec)
    (h3 : sec.body = SectionBody.codeB buf) :
    (appendToCodeBlock a s).doc.get? idx
      = some { sec with body := SectionBody.codeB (buf ++ cleanCode a) }
    ∧ (appendToCodeBlock a s).doc.length = s.doc.length := by
  unfold appendToCodeBlock
  rw [ensureCode_of_some s idx h1]
  unfold appendCodeCore
  simp only [h1, h2, h3]
  constructor
  · have hlt : idx < s.doc.length := (List.get?_eq_some.mp h2).1
    exact set_get?_eq_of_lt _ _ _ hlt
  · simp

/-- C9 amended, witness: a fragment `"B"` of session 1 appended into a
section created by session 0 and still referenced by the leaked
handle. -/
theorem c9_amended_append_follows_live_handle_witness :
    (appendToCodeBlock "B"
        ⟨[⟨CType.code, SectionBody.codeB "A", 0, 0⟩],
          setSlot (fun _ => none) CType.code (some 0), some 1, 2, true,
          true⟩).doc.get? 0
      = some ⟨CType.code, SectionBody.codeB ("A" ++ cleanCode "B"), 0, 0⟩
    ∧ (appendToCodeBlock "B"
        ⟨[⟨CType.code, SectionBody.codeB "A", 0, 0⟩],
          setSlot (fun _ => none) CType.code (some 0), some 1, 2, true,
          true⟩).doc.length
      = ([⟨CType.code, SectionBody.codeB "A", 0, 0⟩] : List RSection).length :=
  c9_amended_append_follows_live_handle "B"
    ⟨[⟨CType.code, SectionBody.codeB "A", 0, 0⟩],
      setSlot (fun _ => none) CType.code (some 0), some 1, 2, true, true⟩
    0 ⟨CType.code, SectionBody.codeB "A", 0, 0⟩ "A" rfl rfl rfl

/- ### Claim C10: JSON scalar fragments under `data` -/

